import Mathlib

/-!
Shallow embedding of the pregnancy-calendar calculation engine
(`src/app/services/pregnancy-calculator/pregnancy-calculator.service.ts`).

Calendar dates carry no time-of-day in this engine, so a date is embedded as
an integer: the number of days since the Unix epoch.  Adding `n` days is
integer addition, and the millisecond subtraction-and-round performed by the
source on midnight-truncated dates yields exactly this integer difference.
The civil (year, month, day) view that JavaScript's `Date` getters provide is
computed by `civilFromDays`, the standard days-to-Gregorian conversion.
`Math.round` on the (exactly representable) rational midpoints used by the
fetal-size tables is embedded as `jsRound q = ⌊q + 1/2⌋`, `Math.floor` of a
nonnegative quotient as integer division, and JavaScript `%` / floored
division on day counts as `Int.tmod` / `Int.fdiv`.
-/

/-- Trimester classification (`type Trimester = 'first' | 'second' | 'third'`). -/
inductive Trimester where
  | first
  | second
  | third
deriving DecidableEq, Repr, Inhabited

/-- Civil calendar view of a date, as exposed by JavaScript `Date` getters
(`getFullYear`, `getMonth() + 1`, `getDate`). -/
structure CivilDate where
  year : ℤ
  month : ℤ
  day : ℤ
deriving DecidableEq, Repr, Inhabited

/-- Days-since-epoch to Gregorian (year, month 1..12, day-of-month) conversion,
modelling the `Date` getters on a date-valued timestamp. -/
def civilFromDays (z0 : ℤ) : CivilDate :=
  let z : ℤ := z0 + 719468
  let era : ℤ := (if 0 ≤ z then z else z - 146096).tdiv 146097
  let doe : ℕ := (z - era * 146097).toNat
  let yoe : ℕ := (doe - doe / 1460 + doe / 36524 - doe / 146096) / 365
  let y : ℤ := (yoe : ℤ) + era * 400
  let doy : ℕ := doe - (365 * yoe + yoe / 4 - yoe / 100)
  let mp : ℕ := (5 * doy + 2) / 153
  let d : ℕ := doy - (153 * mp + 2) / 5 + 1
  let m : ℤ := (mp : ℤ) + (if mp < 10 then 3 else -9)
  { year := y + (if m ≤ 2 then 1 else 0), month := m, day := (d : ℤ) }

/-- `Math.round`, on the exact rationals arising in this engine. -/
def jsRound (q : ℚ) : ℤ := ⌊q + 1 / 2⌋

/-- A `{min, max}` range from the fetal development reference table. -/
structure MinMax where
  min : ℚ
  max : ℚ
deriving DecidableEq, Repr, Inhabited

/-- One row of the fetal development reference table (`FetalDevelopment`). -/
structure FetalDevelopment where
  week : ℤ
  description : String
  sizeComparison : String
  weightRange : MinMax
  lengthRange : MinMax
  keyDevelopments : List String
deriving DecidableEq, Repr, Inhabited

/-- One row of the appointment schedule reference table (`AppointmentSchedule`). -/
structure AppointmentSchedule where
  week : ℤ
  appointmentType : String
  description : String
  priority : String
deriving DecidableEq, Repr, Inhabited

/-- Result of `calculateGestationalAge`. -/
structure GestationalAge where
  weeks : ℤ
  days : ℤ
  totalDays : ℤ
  formatted : String
deriving DecidableEq, Repr, Inhabited

/-- One entry of the generated calendar (`PregnancyDay`). -/
structure PregnancyDay where
  dayNumber : ℕ
  date : ℤ
  formattedDate : String
  gestationalWeek : ℤ
  dayOfWeek : ℤ
  gestationalAge : String
  calendarMonth : ℤ
  calendarYear : ℤ
  monthName : String
  trimester : Trimester
  developmentMilestone : Option String
  estimatedFetalWeight : Option ℚ
  estimatedFetalLength : Option ℚ
  appointments : List String
  notes : List String
deriving DecidableEq, Repr, Inhabited

/-- `PregnancySummary`. -/
structure PregnancySummary where
  currentGestationalAge : String
  currentTrimester : Trimester
  daysCompleted : ℤ
  daysRemaining : ℤ
  progressPercentage : ℤ
  estimatedDueDate : ℤ
  formattedDueDate : String
  upcomingMilestones : List String
  nextAppointments : List String
deriving DecidableEq, Repr, Inhabited

/-- `MonthFilter`. -/
structure MonthFilter where
  month : ℤ
  year : ℤ
  monthName : String
  startDate : ℤ
  endDate : ℤ
  pregnancyDaysCount : ℕ
  displayLabel : String
deriving DecidableEq, Repr, Inhabited

/-- An entry of the milestone list hard-coded in `getUpcomingMilestones`. -/
structure Milestone where
  week : ℤ
  description : String
deriving DecidableEq, Repr, Inhabited

/-- `PREGNANCY_DURATION_DAYS = 280`. -/
def PREGNANCY_DURATION_DAYS : ℕ := 280

/-- `PREGNANCY_DURATION_WEEKS = 40`. -/
def PREGNANCY_DURATION_WEEKS : ℕ := 40

/-- `DAYS_PER_WEEK = 7`. -/
def DAYS_PER_WEEK : ℤ := 7

/-- `MONTH_NAMES`. -/
def MONTH_NAMES : List String :=
  ["January", "February", "March", "April", "May", "June", "July",
   "August", "September", "October", "November", "December"]

/-- `calculateDueDate(lmpDate)`: LMP + 280 days. -/
def calculateDueDate (lmpDate : ℤ) : ℤ :=
  lmpDate + (PREGNANCY_DURATION_DAYS : ℤ)

/-- `calculateGestationalAge(lmpDate, currentDate)`: both dates are already
date-only integers, so the midnight truncation and millisecond rounding of the
source are the identity here; `Math.floor` of the day quotient is `Int.fdiv`
and JavaScript `%` is `Int.tmod`. -/
def calculateGestationalAge (lmpDate currentDate : ℤ) : GestationalAge :=
  let totalDays : ℤ := currentDate - lmpDate
  let weeks : ℤ := totalDays.fdiv DAYS_PER_WEEK
  let days : ℤ := totalDays.tmod DAYS_PER_WEEK
  { weeks := weeks, days := days, totalDays := totalDays,
    formatted := toString weeks ++ " weeks " ++ toString (days + 1) ++ " days" }

/-- `getTrimester(gestationalWeeks)`. -/
def getTrimester (gestationalWeeks : ℤ) : Trimester :=
  if gestationalWeeks < 13 then Trimester.first
  else if gestationalWeeks < 27 then Trimester.second
  else Trimester.third

/-- `getFetalDevelopmentData()`. -/
def getFetalDevelopmentData : List FetalDevelopment :=
  [{ week := 4, description := "Embryo implants in uterine wall",
     sizeComparison := "Poppy seed",
     weightRange := { min := 0, max := 0 },
     lengthRange := { min := 0.1, max := 0.2 },
     keyDevelopments := ["Neural tube formation begins", "Heart starts to develop"] },
   { week := 8, description := "All major organs have begun to form",
     sizeComparison := "Raspberry",
     weightRange := { min := 1, max := 2 },
     lengthRange := { min := 1.6, max := 2.0 },
     keyDevelopments := ["Limb buds appear", "Facial features developing"] },
   { week := 12, description := "Fetus can make movements",
     sizeComparison := "Plum",
     weightRange := { min := 14, max := 20 },
     lengthRange := { min := 5.4, max := 6.5 },
     keyDevelopments := ["Reflexes develop", "Kidneys start producing urine"] },
   { week := 16, description := "Baby can hear sounds from outside",
     sizeComparison := "Avocado",
     weightRange := { min := 100, max := 140 },
     lengthRange := { min := 10.9, max := 12.0 },
     keyDevelopments := ["Hearing develops", "Limbs are fully formed"] },
   { week := 20, description := "Halfway point - anatomy scan time",
     sizeComparison := "Banana",
     weightRange := { min := 260, max := 350 },
     lengthRange := { min := 16.4, max := 18.0 },
     keyDevelopments := ["Sex can be determined", "Taste buds develop"] },
   { week := 24, description := "Viability milestone reached",
     sizeComparison := "Corn on the cob",
     weightRange := { min := 600, max := 750 },
     lengthRange := { min := 21.0, max := 23.0 },
     keyDevelopments := ["Lungs begin producing surfactant", "Hearing is well developed"] },
   { week := 28, description := "Third trimester begins",
     sizeComparison := "Eggplant",
     weightRange := { min := 1000, max := 1200 },
     lengthRange := { min := 25.0, max := 27.0 },
     keyDevelopments := ["Eyes can open", "Brain tissue increases rapidly"] },
   { week := 32, description := "Rapid brain development continues",
     sizeComparison := "Jicama",
     weightRange := { min := 1700, max := 1900 },
     lengthRange := { min := 28.0, max := 30.0 },
     keyDevelopments := ["Bones harden", "Toenails and fingernails grow"] },
   { week := 36, description := "Baby is getting ready for birth",
     sizeComparison := "Romaine lettuce",
     weightRange := { min := 2600, max := 2900 },
     lengthRange := { min := 32.0, max := 34.0 },
     keyDevelopments := ["Immune system develops", "Fat continues to accumulate"] },
   { week := 40, description := "Full term - ready for birth",
     sizeComparison := "Small pumpkin",
     weightRange := { min := 3200, max := 3600 },
     lengthRange := { min := 48.0, max := 52.0 },
     keyDevelopments := ["Fully developed", "Ready for life outside the womb"] }]

/-- `getAppointmentScheduleData()`. -/
def getAppointmentScheduleData : List AppointmentSchedule :=
  [{ week := 8, appointmentType := "First Prenatal Visit",
     description := "Confirm pregnancy, medical history, initial tests",
     priority := "critical" },
   { week := 12, appointmentType := "First Trimester Screening",
     description := "NT scan and blood work for genetic screening",
     priority := "important" },
   { week := 16, appointmentType := "Routine Checkup",
     description := "Blood pressure, weight, fundal height measurement",
     priority := "routine" },
   { week := 20, appointmentType := "Anatomy Scan",
     description := "Detailed ultrasound to check baby\x27s development",
     priority := "critical" },
   { week := 24, appointmentType := "Glucose Screening",
     description := "Test for gestational diabetes",
     priority := "important" },
   { week := 28, appointmentType := "Third Trimester Begin",
     description := "Routine checkup, discuss birth plan",
     priority := "important" },
   { week := 32, appointmentType := "Routine Checkup",
     description := "Monitor baby\x27s growth and position",
     priority := "routine" },
   { week := 36, appointmentType := "Group B Strep Test",
     description := "Screen for Group B Streptococcus bacteria",
     priority := "important" },
   { week := 38, appointmentType := "Pre-delivery Checkup",
     description := "Check cervix, discuss delivery options",
     priority := "important" },
   { week := 40, appointmentType := "Due Date Assessment",
     description := "Evaluate if induction is needed",
     priority := "critical" }]

/-- `getDevelopmentMilestone(gestationalWeek, dayOfWeek)`. -/
def getDevelopmentMilestone (gestationalWeek dayOfWeek : ℤ) : Option String :=
  let weekData := getFetalDevelopmentData.find? (fun data => data.week == gestationalWeek)
  if dayOfWeek = 1 then weekData.map (fun w => w.description) else none

/-- `getEstimatedFetalWeight(gestationalWeek)`: average of the range, rounded. -/
def getEstimatedFetalWeight (gestationalWeek : ℤ) : Option ℚ :=
  let weekData := getFetalDevelopmentData.find? (fun data => data.week == gestationalWeek)
  weekData.map (fun w => ((jsRound ((w.weightRange.min + w.weightRange.max) / 2) : ℤ) : ℚ))

/-- `getEstimatedFetalLength(gestationalWeek)`: average of the range, rounded. -/
def getEstimatedFetalLength (gestationalWeek : ℤ) : Option ℚ :=
  let weekData := getFetalDevelopmentData.find? (fun data => data.week == gestationalWeek)
  weekData.map (fun w => ((jsRound ((w.lengthRange.min + w.lengthRange.max) / 2) : ℤ) : ℚ))

/-- `getAppointmentsForWeek(gestationalWeek)`. -/
def getAppointmentsForWeek (gestationalWeek : ℤ) : List String :=
  (getAppointmentScheduleData.filter (fun appt => appt.week == gestationalWeek)).map
    (fun appt => appt.appointmentType ++ ": " ++ appt.description)

/-- `getNotesForWeek(gestationalWeek)`: the pushes of the source, in order. -/
def getNotesForWeek (gestationalWeek : ℤ) : List String :=
  (if gestationalWeek = 13 then ["Welcome to the second trimester!"]
   else if gestationalWeek = 27 then ["Welcome to the third trimester!"]
   else []) ++
  (if gestationalWeek = 24 then
    ["Viability milestone reached - baby has survival chances if born now"]
   else []) ++
  (if gestationalWeek = 37 then ["Baby is now considered full-term"] else [])

/-- Two-digit zero padding (`padStart(2, '0')`). -/
def pad2 (n : ℤ) : String :=
  let s := toString n
  if s.length < 2 then "0" ++ s else s

/-- `formatDate(date)`: `MM/DD/YYYY`. -/
def formatDate (date : ℤ) : String :=
  let c := civilFromDays date
  pad2 c.month ++ "/" ++ pad2 c.day ++ "/" ++ toString c.year

/-- Body of the `generatePregnancyCalendar` loop for one `dayNumber`. -/
def pregnancyDayFor (lmpDate : ℤ) (dayNumber : ℕ) : PregnancyDay :=
  let currentDate : ℤ := lmpDate + (dayNumber : ℤ) - 1
  let gestationalAge := calculateGestationalAge lmpDate currentDate
  let gestationalWeek := gestationalAge.weeks + 1
  let dayOfWeek := gestationalAge.days + 1
  let trimester := getTrimester gestationalAge.weeks
  let c := civilFromDays currentDate
  { dayNumber := dayNumber,
    date := currentDate,
    formattedDate := formatDate currentDate,
    gestationalWeek := gestationalWeek,
    dayOfWeek := dayOfWeek,
    gestationalAge := gestationalAge.formatted,
    calendarMonth := c.month,
    calendarYear := c.year,
    monthName := MONTH_NAMES.getD (c.month - 1).toNat "",
    trimester := trimester,
    developmentMilestone := getDevelopmentMilestone gestationalWeek dayOfWeek,
    estimatedFetalWeight := getEstimatedFetalWeight gestationalWeek,
    estimatedFetalLength := getEstimatedFetalLength gestationalWeek,
    appointments := getAppointmentsForWeek gestationalWeek,
    notes := getNotesForWeek gestationalWeek }

/-- `generatePregnancyCalendar(lmpDate)`: the loop over `dayNumber` 1..280. -/
def generatePregnancyCalendar (lmpDate : ℤ) : List PregnancyDay :=
  (List.range PREGNANCY_DURATION_DAYS).map (fun i => pregnancyDayFor lmpDate (i + 1))

/-- Milestone list hard-coded in `getUpcomingMilestones`. -/
def milestonesData : List Milestone :=
  [{ week := 12, description := "End of first trimester" },
   { week := 20, description := "Anatomy scan" },
   { week := 24, description := "Viability milestone" },
   { week := 28, description := "Third trimester begins" },
   { week := 32, description := "Rapid brain development" },
   { week := 36, description := "Baby considered full-term soon" },
   { week := 40, description := "Due date" }]

/-- `getUpcomingMilestones(currentWeek)`: filter, take 3, format. -/
def getUpcomingMilestones (currentWeek : ℤ) : List String :=
  ((milestonesData.filter (fun m => decide (m.week > currentWeek))).take 3).map
    (fun m => "Week " ++ toString m.week ++ ": " ++ m.description)

/-- `getNextAppointments(currentWeek)`: filter, take 2, format. -/
def getNextAppointments (currentWeek : ℤ) : List String :=
  ((getAppointmentScheduleData.filter (fun appt => decide (appt.week > currentWeek))).take 2).map
    (fun appt => "Week " ++ toString appt.week ++ ": " ++ appt.appointmentType)

/-- `generatePregnancySummary(lmpDate)`; the source reads the current time with
`new Date()`, made an explicit date parameter `now` here. -/
def generatePregnancySummary (lmpDate now : ℤ) : PregnancySummary :=
  let gestationalAge := calculateGestationalAge lmpDate now
  let dueDate := calculateDueDate lmpDate
  let trimester := getTrimester gestationalAge.weeks
  let daysRemaining : ℤ := max 0 (dueDate - now)
  let progressPercentage : ℤ :=
    min 100 (jsRound ((gestationalAge.totalDays : ℚ) / (PREGNANCY_DURATION_DAYS : ℚ) * 100))
  { currentGestationalAge := gestationalAge.formatted,
    currentTrimester := trimester,
    daysCompleted := gestationalAge.totalDays,
    daysRemaining := daysRemaining,
    progressPercentage := progressPercentage,
    estimatedDueDate := dueDate,
    formattedDueDate := formatDate dueDate,
    upcomingMilestones := getUpcomingMilestones gestationalAge.weeks,
    nextAppointments := getNextAppointments gestationalAge.weeks }

/-- The grouping key of `generateMonthFilters`: the source keys a `Map` by the
string `"<year>-<mm>"`, i.e. by the (calendarYear, calendarMonth) pair. -/
def dayKey (day : PregnancyDay) : ℤ × ℤ := (day.calendarYear, day.calendarMonth)

/-- Push `day` onto the group of key `k` (the `Map` bucket push of the source),
creating the bucket at the end when the key is new (`Map` insertion order). -/
def insertGrouped (k : ℤ × ℤ) (day : PregnancyDay) :
    List ((ℤ × ℤ) × List PregnancyDay) → List ((ℤ × ℤ) × List PregnancyDay)
  | [] => [(k, [day])]
  | g :: gs =>
    if g.1 = k then (g.1, g.2 ++ [day]) :: gs else g :: insertGrouped k day gs

/-- The `monthGroups` map of `generateMonthFilters`, in insertion order. -/
def monthGroups (days : List PregnancyDay) : List ((ℤ × ℤ) × List PregnancyDay) :=
  days.foldl (fun acc day => insertGrouped (dayKey day) day acc) []

/-- Build one `MonthFilter` from a group (the body of the second `forEach`). -/
def mkMonthFilter (g : (ℤ × ℤ) × List PregnancyDay) : MonthFilter :=
  let year := g.1.1
  let month := g.1.2
  let firstDay := g.2.headD default
  let lastDay := g.2.getLastD default
  { month := month,
    year := year,
    monthName := MONTH_NAMES.getD (month - 1).toNat "",
    startDate := firstDay.date,
    endDate := lastDay.date,
    pregnancyDaysCount := g.2.length,
    displayLabel := MONTH_NAMES.getD (month - 1).toNat "" ++ " " ++ toString year ++
      " (" ++ toString g.2.length ++ " days)" }

/-- Stable insertion into a list sorted by `startDate`, modelling the
`sort((a, b) => a.startDate - b.startDate)` comparator. -/
def insertByStartDate (f : MonthFilter) : List MonthFilter → List MonthFilter
  | [] => [f]
  | g :: gs =>
    if f.startDate ≤ g.startDate then f :: g :: gs else g :: insertByStartDate f gs

/-- Sort by `startDate` (JavaScript `Array.prototype.sort` with the numeric
`startDate` comparator). -/
def sortByStartDate : List MonthFilter → List MonthFilter
  | [] => []
  | f :: fs => insertByStartDate f (sortByStartDate fs)

/-- `generateMonthFilters(lmpDate)`. -/
def generateMonthFilters (lmpDate : ℤ) : List MonthFilter :=
  sortByStartDate ((monthGroups (generatePregnancyCalendar lmpDate)).map mkMonthFilter)

/-- `filterByMonth(pregnancyDays, monthFilter)`. -/
def filterByMonth (pregnancyDays : List PregnancyDay) (monthFilter : MonthFilter) :
    List PregnancyDay :=
  pregnancyDays.filter
    (fun day => day.calendarMonth == monthFilter.month && day.calendarYear == monthFilter.year)

/-- Gestational age after `n` whole days: division and remainder in ℕ. -/
theorem gestAge_nat (R : ℤ) (n : ℕ) :
    calculateGestationalAge R (R + n) =
      { weeks := ((n / 7 : ℕ) : ℤ), days := ((n % 7 : ℕ) : ℤ), totalDays := (n : ℤ),
        formatted := toString ((n / 7 : ℕ) : ℤ) ++ " weeks " ++
          toString (((n % 7 : ℕ) : ℤ) + 1) ++ " days" } := by
  have h1 : R + (n : ℤ) - R = (n : ℤ) := by ring
  have h2 : Int.fdiv (n : ℤ) 7 = ((n / 7 : ℕ) : ℤ) := (Int.ofNat_fdiv n 7).symm
  have h3 : Int.tmod (n : ℤ) 7 = ((n % 7 : ℕ) : ℤ) := (Int.ofNat_tmod n 7).symm
  simp only [calculateGestationalAge, DAYS_PER_WEEK, h1, h2, h3]

/-- Length of the generated calendar. -/
theorem calendar_length (R : ℤ) : (generatePregnancyCalendar R).length = 280 := by
  simp [generatePregnancyCalendar, PREGNANCY_DURATION_DAYS]

/-- Indexing the generated calendar yields the loop body at `dayNumber = i + 1`. -/
theorem calendar_getD (R : ℤ) (i : ℕ) (h : i < 280) (d : PregnancyDay) :
    (generatePregnancyCalendar R).getD i d = pregnancyDayFor R (i + 1) := by
  simp only [generatePregnancyCalendar, PREGNANCY_DURATION_DAYS, List.getD_eq_getElem?_getD,
    List.getElem?_map, List.getElem?_range h, Option.map_some', Option.getD_some]

/-- The loop body in fully computed form. -/
theorem pregnancyDayFor_succ (R : ℤ) (i : ℕ) :
    pregnancyDayFor R (i + 1) =
      { dayNumber := i + 1,
        date := R + i,
        formattedDate := formatDate (R + i),
        gestationalWeek := ((i / 7 : ℕ) : ℤ) + 1,
        dayOfWeek := ((i % 7 : ℕ) : ℤ) + 1,
        gestationalAge := toString ((i / 7 : ℕ) : ℤ) ++ " weeks " ++
          toString (((i % 7 : ℕ) : ℤ) + 1) ++ " days",
        calendarMonth := (civilFromDays (R + i)).month,
        calendarYear := (civilFromDays (R + i)).year,
        monthName := MONTH_NAMES.getD ((civilFromDays (R + i)).month - 1).toNat "",
        trimester := getTrimester ((i / 7 : ℕ) : ℤ),
        developmentMilestone :=
          getDevelopmentMilestone (((i / 7 : ℕ) : ℤ) + 1) (((i % 7 : ℕ) : ℤ) + 1),
        estimatedFetalWeight := getEstimatedFetalWeight (((i / 7 : ℕ) : ℤ) + 1),
        estimatedFetalLength := getEstimatedFetalLength (((i / 7 : ℕ) : ℤ) + 1),
        appointments := getAppointmentsForWeek (((i / 7 : ℕ) : ℤ) + 1),
        notes := getNotesForWeek (((i / 7 : ℕ) : ℤ) + 1) } := by
  have hc : R + ((i + 1 : ℕ) : ℤ) - 1 = R + (i : ℕ) := by push_cast; ring
  simp only [pregnancyDayFor, hc, gestAge_nat]

/-- C1: for every reference date R, `generatePregnancyCalendar R` has exactly 280
records, and the record at 0-based index i has `dayNumber = i + 1` (so day
numbers are 1..280 in ascending order), `date = R + i` days,
`gestationalWeek = i / 7 + 1` and `dayOfWeek = i % 7 + 1`. -/
theorem generateCalendar_length_and_fields (R : ℤ) :
    (generatePregnancyCalendar R).length = 280 ∧
    ∀ i : Fin 280,
      ((generatePregnancyCalendar R).getD (i : ℕ) default).dayNumber = (i : ℕ) + 1 ∧
      ((generatePregnancyCalendar R).getD (i : ℕ) default).date = R + ((i : ℕ) : ℤ) ∧
      ((generatePregnancyCalendar R).getD (i : ℕ) default).gestationalWeek =
        (((i : ℕ) / 7 : ℕ) : ℤ) + 1 ∧
      ((generatePregnancyCalendar R).getD (i : ℕ) default).dayOfWeek =
        (((i : ℕ) % 7 : ℕ) : ℤ) + 1 := by
  refine ⟨calendar_length R, fun i => ?_⟩
  rw [calendar_getD R i i.isLt, pregnancyDayFor_succ]
  exact ⟨rfl, rfl, rfl, rfl⟩

/-- C2: for reference ≤ as-of dates, gestational age returns the exact whole
day difference, `weeks`/`days` are the floor quotient and remainder by 7 (with
`days` in 0..6), formatted with the day component displayed as `days + 1`; at
equal dates the result is exactly zero and renders as `0 weeks 1 days`. -/
theorem gestationalAge_spec (R A : ℤ) (h : R ≤ A) :
    (calculateGestationalAge R A).totalDays = A - R ∧
    7 * (calculateGestationalAge R A).weeks + (calculateGestationalAge R A).days =
      (calculateGestationalAge R A).totalDays ∧
    0 ≤ (calculateGestationalAge R A).days ∧
    (calculateGestationalAge R A).days < 7 ∧
    (calculateGestationalAge R A).formatted =
      toString (calculateGestationalAge R A).weeks ++ " weeks " ++
        toString ((calculateGestationalAge R A).days + 1) ++ " days" ∧
    calculateGestationalAge R R =
      { weeks := 0, days := 0, totalDays := 0, formatted := "0 weeks 1 days" } := by
  obtain ⟨n, hn⟩ := Int.le.dest h
  have hRR : calculateGestationalAge R R =
      { weeks := 0, days := 0, totalDays := 0, formatted := "0 weeks 1 days" } := by
    have h0 := gestAge_nat R 0
    simpa using h0
  rw [← hn, gestAge_nat]
  dsimp only
  refine ⟨by ring, ?_, ?_, ?_, rfl, hRR⟩
  · exact_mod_cast Nat.div_add_mod n 7
  · exact_mod_cast Nat.zero_le _
  · exact_mod_cast Nat.mod_lt n (show 0 < 7 by norm_num)

/-- Witness for C2 at R = 0, A = 10. -/
theorem gestationalAge_spec_witness :
    (0 : ℤ) ≤ 10 ∧ (calculateGestationalAge 0 10).totalDays = 10 - 0 :=
  ⟨by decide, (gestationalAge_spec 0 10 (by decide)).1⟩

/-- C3: trimester classification is `first` iff weeks < 13, `second` iff
13 ≤ weeks < 27, `third` iff 27 ≤ weeks; and every trimester stored in a
calendar record or in the summary is derived by this same rule from the
completed weeks. -/
theorem trimester_classification (w : ℤ) (hw : 0 ≤ w) :
    ((getTrimester w = Trimester.first ↔ w < 13) ∧
      (getTrimester w = Trimester.second ↔ 13 ≤ w ∧ w < 27) ∧
      (getTrimester w = Trimester.third ↔ 27 ≤ w)) ∧
    (∀ R : ℤ, ∀ i : Fin 280,
      ((generatePregnancyCalendar R).getD (i : ℕ) default).trimester =
        getTrimester (((generatePregnancyCalendar R).getD (i : ℕ) default).gestationalWeek - 1)) ∧
    (∀ R now : ℤ, (generatePregnancySummary R now).currentTrimester =
      getTrimester (calculateGestationalAge R now).weeks) := by
  refine ⟨⟨?_, ?_, ?_⟩, ?_, ?_⟩
  · unfold getTrimester
    split_ifs with h1 h2 <;> simp_all
  · unfold getTrimester
    split_ifs with h1 h2 <;> simp_all
  · unfold getTrimester
    split_ifs with h1 h2 <;> simp_all <;> omega
  · intro R i
    rw [calendar_getD R i i.isLt, pregnancyDayFor_succ]
    show getTrimester _ = getTrimester _
    congr 1
    ring
  · intro R now
    rfl

/-- Witness for C3 at w = 5. -/
theorem trimester_classification_witness :
    (0 : ℤ) ≤ 5 ∧ getTrimester 5 = Trimester.first :=
  ⟨by decide, ((trimester_classification 5 (by decide)).1.1).mpr (by decide)⟩

/-- C4: the due date is the reference date plus 280 days, and the last calendar
record (day number 280) falls one day before the due date. -/
theorem dueDate_spec (R : ℤ) :
    calculateDueDate R = R + 280 ∧
    (generatePregnancyCalendar R).getLast?.map (fun d => (d.dayNumber, d.date)) =
      some (280, calculateDueDate R - 1) := by
  have hlast : (generatePregnancyCalendar R).getLast? = some (pregnancyDayFor R 280) := by
    rw [List.getLast?_eq_getElem?, calendar_length]
    simp only [generatePregnancyCalendar, PREGNANCY_DURATION_DAYS]
    rw [List.getElem?_map, List.getElem?_range (by norm_num : 280 - 1 < 280)]
    rfl
  refine ⟨by simp [calculateDueDate, PREGNANCY_DURATION_DAYS], ?_⟩
  rw [hlast, Option.map_some']
  have h280 : pregnancyDayFor R 280 = pregnancyDayFor R (279 + 1) := rfl
  rw [h280, pregnancyDayFor_succ]
  simp [calculateDueDate, PREGNANCY_DURATION_DAYS]
  omega

/-- The development table has an entry for a week iff the week is one of
4, 8, 12, 16, 20, 24, 28, 32, 36, 40. -/
theorem devWeeks_find?_isSome (w : ℤ) :
    (getFetalDevelopmentData.find? (fun data => data.week == w)).isSome ↔
      w ∈ ([4, 8, 12, 16, 20, 24, 28, 32, 36, 40] : List ℤ) := by
  rw [List.find?_isSome]
  simp only [getFetalDevelopmentData, List.mem_cons, List.not_mem_nil, or_false,
    exists_eq_or_imp, exists_eq_left, beq_iff_eq]
  constructor
  · intro h
    omega
  · intro h
    omega

/-- Milestone text is present exactly on day 1 of a week with development data. -/
theorem milestone_isSome_iff (w dow : ℤ) :
    (getDevelopmentMilestone w dow).isSome ↔
      (dow = 1 ∧ w ∈ ([4, 8, 12, 16, 20, 24, 28, 32, 36, 40] : List ℤ)) := by
  unfold getDevelopmentMilestone
  split_ifs with h
  · simp only [Option.isSome_map', h, true_and]
    exact devWeeks_find?_isSome w
  · simp [h]

/-- Estimated weight is present exactly on weeks with development data. -/
theorem weight_isSome_iff (w : ℤ) :
    (getEstimatedFetalWeight w).isSome ↔
      w ∈ ([4, 8, 12, 16, 20, 24, 28, 32, 36, 40] : List ℤ) := by
  unfold getEstimatedFetalWeight
  simp only [Option.isSome_map']
  exact devWeeks_find?_isSome w

/-- Estimated length is present exactly on weeks with development data. -/
theorem length_isSome_iff (w : ℤ) :
    (getEstimatedFetalLength w).isSome ↔
      w ∈ ([4, 8, 12, 16, 20, 24, 28, 32, 36, 40] : List ℤ) := by
  unfold getEstimatedFetalLength
  simp only [Option.isSome_map']
  exact devWeeks_find?_isSome w

/-- C5: on every calendar record, the development milestone is present iff the
record is day 1 of a gestational week with development reference data (weeks
4, 8, 12, 16, 20, 24, 28, 32, 36, 40), while estimated fetal weight and length
are present iff the gestational week has development data, regardless of the
day of the week; on weeks without data all three are absent. -/
theorem milestone_and_size_presence (R : ℤ) (i : Fin 280) :
    (((generatePregnancyCalendar R).getD (i : ℕ) default).developmentMilestone.isSome ↔
      (((generatePregnancyCalendar R).getD (i : ℕ) default).dayOfWeek = 1 ∧
        ((generatePregnancyCalendar R).getD (i : ℕ) default).gestationalWeek ∈
          ([4, 8, 12, 16, 20, 24, 28, 32, 36, 40] : List ℤ))) ∧
    (((generatePregnancyCalendar R).getD (i : ℕ) default).estimatedFetalWeight.isSome ↔
      ((generatePregnancyCalendar R).getD (i : ℕ) default).gestationalWeek ∈
        ([4, 8, 12, 16, 20, 24, 28, 32, 36, 40] : List ℤ)) ∧
    (((generatePregnancyCalendar R).getD (i : ℕ) default).estimatedFetalLength.isSome ↔
      ((generatePregnancyCalendar R).getD (i : ℕ) default).gestationalWeek ∈
        ([4, 8, 12, 16, 20, 24, 28, 32, 36, 40] : List ℤ)) := by
  rw [calendar_getD R i i.isLt, pregnancyDayFor_succ]
  exact ⟨milestone_isSome_iff _ _, weight_isSome_iff _, length_isSome_iff _⟩

/-- C6 fails as stated: on the week-8 records the stored estimated fetal weight
is 2 (the source rounds), while the midpoint of the week-8 weight range 1..2 is
3/2; shown here on day 50 (index 49) of the calendar for reference date 0. -/
theorem fetal_size_midpoint_counterexample :
    ((generatePregnancyCalendar 0).getD 49 default).gestationalWeek = 8 ∧
    (getFetalDevelopmentData.getD 1 default).week = 8 ∧
    (getFetalDevelopmentData.getD 1 default).weightRange.min = 1 ∧
    (getFetalDevelopmentData.getD 1 default).weightRange.max = 2 ∧
    ((generatePregnancyCalendar 0).getD 49 default).estimatedFetalWeight = some 2 ∧
    ¬ ((generatePregnancyCalendar 0).getD 49 default).estimatedFetalWeight =
        some (((getFetalDevelopmentData.getD 1 default).weightRange.min +
               (getFetalDevelopmentData.getD 1 default).weightRange.max) / 2) := by
  have hgetD : (generatePregnancyCalendar 0).getD 49 default = pregnancyDayFor 0 (49 + 1) :=
    calendar_getD 0 49 (by norm_num) default
  have h8 : (((49 : ℕ) / 7 : ℕ) : ℤ) + 1 = 8 := by norm_num
  have hW : ((generatePregnancyCalendar 0).getD 49 default).estimatedFetalWeight = some 2 := by
    rw [hgetD, pregnancyDayFor_succ]
    dsimp only
    rw [h8]
    norm_num [getEstimatedFetalWeight, getFetalDevelopmentData, jsRound]
  refine ⟨?_, by norm_num [getFetalDevelopmentData], by norm_num [getFetalDevelopmentData],
    by norm_num [getFetalDevelopmentData], hW, ?_⟩
  · rw [hgetD, pregnancyDayFor_succ]
    exact h8
  · rw [hW]
    norm_num [getFetalDevelopmentData]

/-- C6 (amended): on every calendar record of a week with development data, the
estimated fetal weight and length equal the midpoint of that week's ranges
rounded to the nearest integer, half rounding up (`Math.round`). -/
theorem fetal_size_rounded_midpoint (R : ℤ) (i : Fin 280) (e : FetalDevelopment)
    (he : e ∈ getFetalDevelopmentData)
    (hw : e.week = ((generatePregnancyCalendar R).getD (i : ℕ) default).gestationalWeek) :
    ((generatePregnancyCalendar R).getD (i : ℕ) default).estimatedFetalWeight =
      some ((jsRound ((e.weightRange.min + e.weightRange.max) / 2) : ℤ) : ℚ) ∧
    ((generatePregnancyCalendar R).getD (i : ℕ) default).estimatedFetalLength =
      some ((jsRound ((e.lengthRange.min + e.lengthRange.max) / 2) : ℤ) : ℚ) := by
  rw [calendar_getD R i i.isLt, pregnancyDayFor_succ] at hw ⊢
  dsimp only at hw ⊢
  rw [← hw]
  fin_cases he <;>
    exact ⟨by norm_num [getEstimatedFetalWeight, getFetalDevelopmentData],
      by norm_num [getEstimatedFetalLength, getFetalDevelopmentData]⟩

/-- Witness for C6 (amended) at R = 0, day index 49 (gestational week 8). -/
theorem fetal_size_rounded_midpoint_witness :
    (getFetalDevelopmentData.getD 1 default ∈ getFetalDevelopmentData) ∧
    ((getFetalDevelopmentData.getD 1 default).week =
      ((generatePregnancyCalendar 0).getD ((49 : Fin 280) : ℕ) default).gestationalWeek) ∧
    ((generatePregnancyCalendar 0).getD ((49 : Fin 280) : ℕ) default).estimatedFetalWeight =
      some ((jsRound (((getFetalDevelopmentData.getD 1 default).weightRange.min +
        (getFetalDevelopmentData.getD 1 default).weightRange.max) / 2) : ℤ) : ℚ) :=
  ⟨by simp [getFetalDevelopmentData],
    by show (getFetalDevelopmentData.getD 1 default).week =
         ((generatePregnancyCalendar 0).getD 49 default).gestationalWeek
       rw [calendar_getD 0 49 (by norm_num) default, pregnancyDayFor_succ]
       simp [getFetalDevelopmentData],
    (fetal_size_rounded_midpoint 0 49 (getFetalDevelopmentData.getD 1 default)
      (by simp [getFetalDevelopmentData])
      (by show (getFetalDevelopmentData.getD 1 default).week =
            ((generatePregnancyCalendar 0).getD 49 default).gestationalWeek
          rw [calendar_getD 0 49 (by norm_num) default, pregnancyDayFor_succ]
          simp [getFetalDevelopmentData])).1⟩

/-- C10: every calendar record's appointments are exactly the appointment-table
rows of its gestational week, in table order, each rendered as
`<appointmentType>: <description>`; this rendering differs from the summary's
`Week <week>: <appointmentType>` rendering on every table row. -/
theorem appointments_rendering (R : ℤ) (i : Fin 280) :
    ((generatePregnancyCalendar R).getD (i : ℕ) default).appointments =
      (getAppointmentScheduleData.filter
          (fun appt => appt.week ==
            ((generatePregnancyCalendar R).getD (i : ℕ) default).gestationalWeek)).map
        (fun appt => appt.appointmentType ++ ": " ++ appt.description) ∧
    (getAppointmentScheduleData.all
      (fun appt => (appt.appointmentType ++ ": " ++ appt.description) !=
        ("Week " ++ toString appt.week ++ ": " ++ appt.appointmentType))) = true := by
  rw [calendar_getD R i i.isLt, pregnancyDayFor_succ]
  exact ⟨rfl, by decide⟩

/-- C7: the summary's remaining days are the clamped-at-zero day difference to
the due date (zero even 10 days past due), and the progress percentage is the
rounded share of 280 days clamped at 100, equal to 0 at the reference date and
100 at the due date. -/
theorem summary_clamping (R now : ℤ) (h : R ≤ now) :
    (generatePregnancySummary R now).daysRemaining = max 0 (calculateDueDate R - now) ∧
    0 ≤ (generatePregnancySummary R now).daysRemaining ∧
    (now = calculateDueDate R + 10 → (generatePregnancySummary R now).daysRemaining = 0) ∧
    (generatePregnancySummary R now).progressPercentage =
      min 100 (jsRound (((now - R : ℤ) : ℚ) / 280 * 100)) ∧
    (generatePregnancySummary R now).progressPercentage ≤ 100 ∧
    (now = R → (generatePregnancySummary R now).progressPercentage = 0) ∧
    (now = calculateDueDate R → (generatePregnancySummary R now).progressPercentage = 100) := by
  have hdr : (generatePregnancySummary R now).daysRemaining =
      max 0 (calculateDueDate R - now) := rfl
  have hpp : (generatePregnancySummary R now).progressPercentage =
      min 100 (jsRound (((now - R : ℤ) : ℚ) / 280 * 100)) := by
    show min 100 (jsRound (((now - R : ℤ) : ℚ) / ((PREGNANCY_DURATION_DAYS : ℕ) : ℚ) * 100)) = _
    norm_num [PREGNANCY_DURATION_DAYS]
  refine ⟨hdr, ?_, ?_, hpp, ?_, ?_, ?_⟩
  · rw [hdr]
    exact le_max_left 0 _
  · intro h10
    rw [hdr, h10]
    omega
  · rw [hpp]
    exact min_le_left 100 _
  · intro h0
    rw [hpp, h0]
    norm_num [jsRound]
  · intro hdue
    rw [hpp, hdue]
    have h280 : ((calculateDueDate R - R : ℤ) : ℚ) = 280 := by
      rw [calculateDueDate]
      push_cast [PREGNANCY_DURATION_DAYS]
      ring
    rw [h280]
    norm_num [jsRound]

/-- Witness for C7 at R = 0, now = 290 (10 days past the due date). -/
theorem summary_clamping_witness :
    (0 : ℤ) ≤ 290 ∧
    (generatePregnancySummary 0 290).daysRemaining = max 0 (calculateDueDate 0 - 290) :=
  ⟨by norm_num, (summary_clamping 0 290 (by norm_num)).1⟩

/-- C8: the summary's upcoming milestones come from the fixed seven-entry week
list 12, 20, 24, 28, 32, 36, 40 filtered to weeks strictly beyond the current
week, first three kept in ascending week order, rendered `Week <w>: <desc>`;
the next appointments come from the appointment table filtered the same way,
first two kept in table order, rendered `Week <w>: <type>`. -/
theorem summary_upcoming_lists (R now : ℤ) (h : R ≤ now) :
    (generatePregnancySummary R now).upcomingMilestones =
      ((([{ week := 12, description := "End of first trimester" },
          { week := 20, description := "Anatomy scan" },
          { week := 24, description := "Viability milestone" },
          { week := 28, description := "Third trimester begins" },
          { week := 32, description := "Rapid brain development" },
          { week := 36, description := "Baby considered full-term soon" },
          { week := 40, description := "Due date" }] : List Milestone).filter
            (fun m => decide (m.week > (calculateGestationalAge R now).weeks))).take 3).map
        (fun m => "Week " ++ toString m.week ++ ": " ++ m.description) ∧
    (generatePregnancySummary R now).nextAppointments =
      ((getAppointmentScheduleData.filter
          (fun appt => decide (appt.week > (calculateGestationalAge R now).weeks))).take 2).map
        (fun appt => "Week " ++ toString appt.week ++ ": " ++ appt.appointmentType) ∧
    (generatePregnancySummary R now).upcomingMilestones.length ≤ 3 ∧
    (generatePregnancySummary R now).nextAppointments.length ≤ 2 ∧
    ((milestonesData.filter
        (fun m => decide (m.week > (calculateGestationalAge R now).weeks))).take 3).Pairwise
      (fun a b => a.week ≤ b.week) := by
  refine ⟨rfl, rfl, ?_, ?_, ?_⟩
  · show (getUpcomingMilestones (calculateGestationalAge R now).weeks).length ≤ 3
    rw [getUpcomingMilestones]
    simp only [List.length_map, List.length_take]
    omega
  · show (getNextAppointments (calculateGestationalAge R now).weeks).length ≤ 2
    rw [getNextAppointments]
    simp only [List.length_map, List.length_take]
    omega
  · have hsorted : milestonesData.Pairwise (fun a b => a.week ≤ b.week) := by decide
    have hsub : ((milestonesData.filter
        (fun m => decide (m.week > (calculateGestationalAge R now).weeks))).take 3).Sublist
        milestonesData :=
      (List.take_sublist _ _).trans (List.filter_sublist _)
    exact List.Pairwise.sublist hsub hsorted

/-- Witness for C8 at R = 0, now = 0. -/
theorem summary_upcoming_lists_witness :
    (0 : ℤ) ≤ 0 ∧ (generatePregnancySummary 0 0).upcomingMilestones.length ≤ 3 :=
  ⟨by norm_num, (summary_upcoming_lists 0 0 (by norm_num)).2.2.1⟩

/-- Pushing one day into the month groups grows the total group size by one. -/
theorem insertGrouped_sizes (k : ℤ × ℤ) (d : PregnancyDay)
    (acc : List ((ℤ × ℤ) × List PregnancyDay)) :
    ((insertGrouped k d acc).map (fun g => g.2.length)).sum =
      ((acc.map (fun g => g.2.length)).sum) + 1 := by
  induction acc with
  | nil => simp [insertGrouped]
  | cons g gs ih =>
    simp only [insertGrouped]
    split_ifs with hk
    · simp only [List.map_cons, List.sum_cons, List.length_append, List.length_singleton]
      omega
    · simp only [List.map_cons, List.sum_cons, ih]
      omega

/-- Folding days into the month groups accumulates their count. -/
theorem foldl_insertGrouped_sizes (days : List PregnancyDay) :
    ∀ acc : List ((ℤ × ℤ) × List PregnancyDay),
      (((days.foldl (fun acc day => insertGrouped (dayKey day) day acc) acc)).map
        (fun g => g.2.length)).sum = ((acc.map (fun g => g.2.length)).sum) + days.length := by
  induction days with
  | nil =>
    intro acc
    simp
  | cons d ds ih =>
    intro acc
    simp only [List.foldl_cons, List.length_cons]
    rw [ih, insertGrouped_sizes]
    omega

/-- Keys of the month groups after one insertion. -/
theorem insertGrouped_keys (k : ℤ × ℤ) (d : PregnancyDay)
    (acc : List ((ℤ × ℤ) × List PregnancyDay)) :
    (insertGrouped k d acc).map Prod.fst =
      if k ∈ acc.map Prod.fst then acc.map Prod.fst else acc.map Prod.fst ++ [k] := by
  induction acc with
  | nil => simp [insertGrouped]
  | cons g gs ih =>
    simp only [insertGrouped, List.map_cons]
    by_cases h1 : g.1 = k
    · rw [if_pos h1, if_pos (show k ∈ g.1 :: gs.map Prod.fst by simp [← h1])]
      simp
    · rw [if_neg h1]
      simp only [List.map_cons]
      rw [ih]
      by_cases h2 : k ∈ gs.map Prod.fst
      · rw [if_pos h2, if_pos (show k ∈ g.1 :: gs.map Prod.fst by simp [h2])]
      · rw [if_neg h2, if_neg (show k ∉ g.1 :: gs.map Prod.fst by
          simp only [List.mem_cons, h2, or_false]
          exact fun h => h1 h.symm)]
        simp

/-- After pushing a day into the month groups, each group again holds exactly
the processed days of its key, provided keys were distinct, correct and
covering beforehand. -/
theorem insertGrouped_content (prev : List PregnancyDay) (d : PregnancyDay)
    (k : ℤ × ℤ) (hd : dayKey d = k) :
    ∀ acc : List ((ℤ × ℤ) × List PregnancyDay),
      (∀ g ∈ acc, g.2 = prev.filter (fun x => decide (dayKey x = g.1))) →
      ((acc.map Prod.fst).Nodup) →
      (k ∉ acc.map Prod.fst → prev.filter (fun x => decide (dayKey x = k)) = []) →
      ∀ g ∈ insertGrouped k d acc,
        g.2 = (prev ++ [d]).filter (fun x => decide (dayKey x = g.1)) := by
  intro acc
  induction acc with
  | nil =>
    intro _ _ hempty g hg
    simp only [insertGrouped, List.mem_singleton] at hg
    subst hg
    dsimp only
    rw [List.filter_append, hempty (by simp)]
    simp [hd]
  | cons g0 gs ih =>
    intro hcontent hnodup hempty g hg
    rw [List.map_cons, List.nodup_cons] at hnodup
    simp only [insertGrouped] at hg
    by_cases h1 : g0.1 = k
    · rw [if_pos h1] at hg
      rcases List.mem_cons.mp hg with hg | hg
      · subst hg
        dsimp only
        rw [List.filter_append, ← hcontent g0 (List.mem_cons_self g0 gs)]
        have h2 : List.filter (fun x => decide (dayKey x = g0.1)) [d] = [d] := by
          simp [hd, h1]
        rw [h2]
      · have hkey : g.1 ≠ k := fun hEq => hnodup.1
          ((h1.trans hEq.symm) ▸ List.mem_map_of_mem Prod.fst hg)
        rw [List.filter_append]
        have h2 : List.filter (fun x => decide (dayKey x = g.1)) [d] = [] := by
          have hne : k ≠ g.1 := Ne.symm hkey
          simp [hd, hne]
        rw [h2, List.append_nil]
        exact hcontent g (List.mem_cons_of_mem g0 hg)
    · rw [if_neg h1] at hg
      rcases List.mem_cons.mp hg with hg | hg
      · subst hg
        rw [List.filter_append]
        have h2 : List.filter (fun x => decide (dayKey x = g.1)) [d] = [] := by
          have hne : k ≠ g.1 := fun h => h1 h.symm
          simp [hd, hne]
        rw [h2, List.append_nil]
        exact hcontent g (List.mem_cons_self _ _)
      · exact ih (fun g' hg' => hcontent g' (List.mem_cons_of_mem _ hg')) hnodup.2
          (fun hk => hempty (by
            rw [List.map_cons]
            simp only [List.mem_cons, not_or]
            exact ⟨fun h => h1 h.symm, hk⟩)) g hg

/-- Folding days into the month groups keeps groups exact, keys distinct and
covering. -/
theorem foldl_insertGrouped_content (days : List PregnancyDay) :
    ∀ (prev : List PregnancyDay) (acc : List ((ℤ × ℤ) × List PregnancyDay)),
      (∀ g ∈ acc, g.2 = prev.filter (fun x => decide (dayKey x = g.1))) →
      ((acc.map Prod.fst).Nodup) →
      (∀ x ∈ prev, dayKey x ∈ acc.map Prod.fst) →
      (∀ g ∈ days.foldl (fun acc day => insertGrouped (dayKey day) day acc) acc,
          g.2 = (prev ++ days).filter (fun x => decide (dayKey x = g.1))) ∧
      ((days.foldl (fun acc day => insertGrouped (dayKey day) day acc) acc).map
        Prod.fst).Nodup ∧
      (∀ x ∈ prev ++ days, dayKey x ∈
          (days.foldl (fun acc day => insertGrouped (dayKey day) day acc) acc).map
            Prod.fst) := by
  induction days with
  | nil =>
    intro prev acc h1 h2 h3
    refine ⟨?_, ?_, ?_⟩
    · simpa using h1
    · simpa using h2
    · simpa using h3
  | cons d ds ih =>
    intro prev acc h1 h2 h3
    simp only [List.foldl_cons]
    have hempty : dayKey d ∉ acc.map Prod.fst →
        prev.filter (fun x => decide (dayKey x = dayKey d)) = [] := by
      intro hk
      rw [List.filter_eq_nil_iff]
      intro x hx
      simp only [decide_eq_true_eq]
      intro hEq
      exact hk (hEq ▸ h3 x hx)
    have hstep1 : ∀ g ∈ insertGrouped (dayKey d) d acc,
        g.2 = (prev ++ [d]).filter (fun x => decide (dayKey x = g.1)) :=
      insertGrouped_content prev d (dayKey d) rfl acc h1 h2 hempty
    have hkeys := insertGrouped_keys (dayKey d) d acc
    have hstep2 : ((insertGrouped (dayKey d) d acc).map Prod.fst).Nodup := by
      rw [hkeys]
      by_cases hmem : dayKey d ∈ acc.map Prod.fst
      · rw [if_pos hmem]
        exact h2
      · rw [if_neg hmem]
        simp [List.nodup_append, h2, hmem]
    have hstep3 : ∀ x ∈ prev ++ [d],
        dayKey x ∈ (insertGrouped (dayKey d) d acc).map Prod.fst := by
      intro x hx
      rw [hkeys]
      rcases List.mem_append.mp hx with hx | hx
      · by_cases hmem : dayKey d ∈ acc.map Prod.fst
        · rw [if_pos hmem]
          exact h3 x hx
        · rw [if_neg hmem]
          exact List.mem_append_left _ (h3 x hx)
      · rw [List.mem_singleton] at hx
        subst hx
        by_cases hmem : dayKey x ∈ acc.map Prod.fst
        · rw [if_pos hmem]
          exact hmem
        · rw [if_neg hmem]
          exact List.mem_append_right _ (by simp)
    have hrec := ih (prev ++ [d]) (insertGrouped (dayKey d) d acc) hstep1 hstep2 hstep3
    rwa [List.append_assoc, List.singleton_append] at hrec

/-- Each month group holds exactly the calendar days of its (year, month) key. -/
theorem monthGroups_content (days : List PregnancyDay) :
    ∀ g ∈ monthGroups days, g.2 = days.filter (fun x => decide (dayKey x = g.1)) := by
  have h := foldl_insertGrouped_content days [] [] (by simp) (by simp) (by simp)
  have h1 := h.1
  simpa [monthGroups] using h1

/-- The month groups of a day list partition it: group sizes sum to its length. -/
theorem monthGroups_sizes (days : List PregnancyDay) :
    ((monthGroups days).map (fun g => g.2.length)).sum = days.length := by
  have h := foldl_insertGrouped_sizes days []
  simpa [monthGroups] using h

/-- Insertion into the sorted filter list is a permutation of consing. -/
theorem insertByStartDate_perm (f : MonthFilter) (l : List MonthFilter) :
    (insertByStartDate f l).Perm (f :: l) := by
  induction l with
  | nil => simp [insertByStartDate]
  | cons g gs ih =>
    simp only [insertByStartDate]
    split_ifs with h
    · exact List.Perm.refl _
    · exact (ih.cons g).trans (List.Perm.swap f g gs)

/-- Sorting the filters permutes them. -/
theorem sortByStartDate_perm (l : List MonthFilter) : (sortByStartDate l).Perm l := by
  induction l with
  | nil => simp [sortByStartDate]
  | cons f fs ih =>
    simp only [sortByStartDate]
    exact (insertByStartDate_perm f _).trans (ih.cons f)

/-- Insertion keeps the filter list sorted by `startDate`. -/
theorem insertByStartDate_pairwise (f : MonthFilter) (l : List MonthFilter)
    (h : l.Pairwise (fun a b => a.startDate ≤ b.startDate)) :
    (insertByStartDate f l).Pairwise (fun a b => a.startDate ≤ b.startDate) := by
  induction l with
  | nil => simp [insertByStartDate]
  | cons g gs ih =>
    rw [List.pairwise_cons] at h
    simp only [insertByStartDate]
    split_ifs with hle
    · rw [List.pairwise_cons]
      refine ⟨?_, List.pairwise_cons.mpr h⟩
      intro b hb
      rcases List.mem_cons.mp hb with hb | hb
      · exact hb ▸ hle
      · exact le_trans hle (h.1 b hb)
    · rw [List.pairwise_cons]
      refine ⟨?_, ih h.2⟩
      intro b hb
      have hb' : b = f ∨ b ∈ gs := by
        simpa using (insertByStartDate_perm f gs).mem_iff.mp hb
      rcases hb' with hb' | hb'
      · exact hb' ▸ le_of_not_le hle
      · exact h.1 b hb'

/-- The sorted filter list is sorted by `startDate`. -/
theorem sortByStartDate_pairwise (l : List MonthFilter) :
    (sortByStartDate l).Pairwise (fun a b => a.startDate ≤ b.startDate) := by
  induction l with
  | nil => simp [sortByStartDate]
  | cons f fs ih => exact insertByStartDate_pairwise f _ ih

set_option maxRecDepth 4000 in
/-- C9: the month filters' day counts sum to exactly 280, the filters are
sorted ascending by start date, and filtering the calendar by any generated
month filter yields exactly that filter's day count of records, all with the
filter's calendar month and year, as an order-preserving sublist of the
calendar. -/
theorem monthFilters_partition_sorted (R : ℤ) :
    ((generateMonthFilters R).map (fun f => f.pregnancyDaysCount)).sum = 280 ∧
    (generateMonthFilters R).Pairwise (fun a b => a.startDate ≤ b.startDate) ∧
    ∀ f ∈ generateMonthFilters R,
      (filterByMonth (generatePregnancyCalendar R) f).length = f.pregnancyDaysCount ∧
      (∀ day ∈ filterByMonth (generatePregnancyCalendar R) f,
          day.calendarMonth = f.month ∧ day.calendarYear = f.year) ∧
      (filterByMonth (generatePregnancyCalendar R) f).Sublist (generatePregnancyCalendar R) := by
  have hperm : (generateMonthFilters R).Perm
      ((monthGroups (generatePregnancyCalendar R)).map mkMonthFilter) := by
    rw [generateMonthFilters]
    exact sortByStartDate_perm _
  refine ⟨?_, ?_, ?_⟩
  · have h1 := (hperm.map (fun f => f.pregnancyDaysCount)).sum_eq
    rw [h1, List.map_map]
    have h2 : ((fun f : MonthFilter => f.pregnancyDaysCount) ∘ mkMonthFilter) =
        (fun g : (ℤ × ℤ) × List PregnancyDay => g.2.length) := rfl
    rw [h2, monthGroups_sizes, calendar_length]
  · rw [generateMonthFilters]
    exact sortByStartDate_pairwise _
  · intro f hf
    have hf' : f ∈ (monthGroups (generatePregnancyCalendar R)).map mkMonthFilter :=
      hperm.mem_iff.mp hf
    obtain ⟨g, hg, rfl⟩ := List.mem_map.mp hf'
    have hcontent := monthGroups_content _ g hg
    have hpred : ∀ x : PregnancyDay,
        (x.calendarMonth == (mkMonthFilter g).month &&
          x.calendarYear == (mkMonthFilter g).year) = decide (dayKey x = g.1) := by
      intro x
      show (x.calendarMonth == g.1.2 && x.calendarYear == g.1.1) = decide (dayKey x = g.1)
      by_cases h1 : x.calendarMonth = g.1.2 <;> by_cases h2 : x.calendarYear = g.1.1 <;>
        simp [dayKey, Prod.ext_iff, h1, h2]
    have hfilter : filterByMonth (generatePregnancyCalendar R) (mkMonthFilter g) =
        (generatePregnancyCalendar R).filter (fun x => decide (dayKey x = g.1)) := by
      rw [filterByMonth]
      exact List.filter_congr (fun x _ => hpred x)
    refine ⟨?_, ?_, ?_⟩
    · rw [hfilter, ← hcontent]
      rfl
    · intro day hday
      rw [filterByMonth, List.mem_filter] at hday
      have hd2 := hday.2
      simp only [Bool.and_eq_true, beq_iff_eq] at hd2
      exact ⟨hd2.1, hd2.2⟩
    · rw [filterByMonth]
      exact List.filter_sublist _

set_option maxRecDepth 200000 in
set_option maxHeartbeats 2000000 in
/-- Witness for C9's per-filter clause at R = 0 and the first generated filter. -/
theorem monthFilters_partition_sorted_witness :
    ((generateMonthFilters 0).getD 0 default ∈ generateMonthFilters 0) ∧
    (filterByMonth (generatePregnancyCalendar 0) ((generateMonthFilters 0).getD 0 default)).length =
      ((generateMonthFilters 0).getD 0 default).pregnancyDaysCount :=
  ⟨by decide, ((monthFilters_partition_sorted 0).2.2 _ (by decide)).1⟩
